import Mathlib

/-!
Verification of the bounded-retry resource-provisioning loops of the
aws_ec2_sagemaker_auto_creation repository.

The repository contains two scripts:
- `ec2-auto-creatation.py`: `handle_api_errors` classifies EC2 API error
  codes; `launch_instances` is a while-loop launching `target_count`
  instances one at a time, retrying transient errors up to `max_retry`
  times with a constant sleep, and re-raising non-retryable errors.
- `sagemaker-auto-creation.py`: `handle_api_errors` classifies SageMaker
  error codes; `create_endpoint_config` is a guarded single-attempt
  configuration phase; `create_endpoint` is a bounded retry loop that on a
  non-retryable error deletes the configuration and re-raises; `main`
  sequences the two phases and maps an uncaught exception to exit code 1.

The embedding is a shallow one: each remote API call is an oracle value
supplied as input (a function from the call index to its outcome), the
while-loops are fuel-indexed structural recursions over an explicit state
record, and raising an exception is an explicit `raised` result
constructor. A `fuelOut` constructor marks fuel exhaustion; the
termination theorems show a computable fuel bound under which it never
occurs.
-/

/-- Outcome of one `run_instances` call: the launched instance id, or a
botocore ClientError carrying an error code. -/
inductive CreateOutcome where
  | success (instanceId : String)
  | failure (errorCode : String)
deriving DecidableEq, Repr

namespace EC2

/-- The `retry_errors` table of `handle_api_errors` in
`ec2-auto-creatation.py`: error code paired with its reason string. -/
def retry_errors (instanceType : String) : List (String × String) :=
  [("IdempotentParameterMismatch", "Safe to retry immediately"),
   ("InsufficientInstanceCapacity", "Insufficient capacity for " ++ instanceType),
   ("RequestLimitExceeded", "AWS API request limit exceeded"),
   ("ServiceUnavailable", "EC2 service unavailable"),
   ("Unsupported", "Instance type " ++ instanceType ++ " not supported")]

/-- `handle_api_errors` of `ec2-auto-creatation.py`: returns the retry
decision together with the reason string it logs (the table reason for a
known code, an unhandled-code message otherwise). -/
def handle_api_errors (errorCode instanceType : String) : Bool × String :=
  match (retry_errors instanceType).lookup errorCode with
  | some reason => (true, reason)
  | none => (false, "Unhandled error code: " ++ errorCode)

/-- The mutable state of the `launch_instances` while-loop, together with
instrumentation recording its observable behaviour: the number of
`run_instances` calls issued, the ids launched, the number of sleeps, the
number of successful and failed SNS publishes, and the trace of
`(instances_remaining, retry_attempts)` pairs observed at each evaluation
of the loop condition. -/
structure Ec2State where
  instancesRemaining : Int
  retryAttempts : Int
  calls : Nat
  launched : List String
  sleeps : Nat
  notifOk : Nat
  notifFailed : Nat
  trace : List (Int × Int)
deriving DecidableEq, Repr

/-- Result of running `launch_instances`: normal loop exit, a re-raised
non-retryable ClientError, or fuel exhaustion of the embedding. -/
inductive Ec2Result where
  | finished (s : Ec2State)
  | raised (errorCode : String) (s : Ec2State)
  | fuelOut (s : Ec2State)
deriving DecidableEq, Repr

/-- `launch_instances` of `ec2-auto-creatation.py`. `oracle i` is the
outcome of the i-th `run_instances` call, `snsOk i` tells whether the SNS
publish after the i-th call succeeds. The loop runs while
`instances_remaining > 0 and retry_attempts < max_retry`; on success it
publishes (swallowing publish failures), decrements the remaining count
and resets the retry counter; on a ClientError it increments the retry
counter, re-raises if `handle_api_errors` returns false, and otherwise
sleeps and loops. -/
def launch_instances (oracle : Nat → CreateOutcome) (snsOk : Nat → Bool)
    (instanceType : String) (maxRetry : Int) : Nat → Ec2State → Ec2Result
  | fuel, s₀ =>
    let s := { s₀ with trace := s₀.trace ++ [(s₀.instancesRemaining, s₀.retryAttempts)] }
    if 0 < s.instancesRemaining ∧ s.retryAttempts < maxRetry then
      match fuel with
      | 0 => .fuelOut s
      | fuel + 1 =>
        match oracle s.calls with
        | .success instanceId =>
          launch_instances oracle snsOk instanceType maxRetry fuel
            { s with
              calls := s.calls + 1,
              launched := s.launched ++ [instanceId],
              notifOk := if snsOk s.calls then s.notifOk + 1 else s.notifOk,
              notifFailed := if snsOk s.calls then s.notifFailed else s.notifFailed + 1,
              instancesRemaining := s.instancesRemaining - 1,
              retryAttempts := 0 }
        | .failure errorCode =>
          if (handle_api_errors errorCode instanceType).1 then
            launch_instances oracle snsOk instanceType maxRetry fuel
              { s with calls := s.calls + 1, retryAttempts := s.retryAttempts + 1,
                       sleeps := s.sleeps + 1 }
          else
            .raised errorCode
              { s with calls := s.calls + 1, retryAttempts := s.retryAttempts + 1 }
    else
      .finished s

/-- The initial loop state: `instances_remaining = target_count`,
`retry_attempts = 0`, nothing launched yet. -/
def ec2_init (targetCount : Int) : Ec2State :=
  ⟨targetCount, 0, 0, [], 0, 0, 0, []⟩

/-- Termination measure of the `launch_instances` loop: each success
strictly decreases `instancesRemaining`, each retryable failure strictly
decreases the remaining retry budget. -/
def ec2_measure (maxRetry : Int) (s : Ec2State) : Nat :=
  s.instancesRemaining.toNat * (maxRetry.toNat + 1) + (maxRetry - s.retryAttempts).toNat

/-- Fuel sufficient for `launch_instances` from the initial state. -/
def ec2_fuel (targetCount maxRetry : Int) : Nat :=
  targetCount.toNat * (maxRetry.toNat + 1) + maxRetry.toNat

/-- Counter sanity: both loop counters are nonnegative and every traced
pair of counters is nonnegative. -/
def EcInv (s : Ec2State) : Prop :=
  0 ≤ s.instancesRemaining ∧ 0 ≤ s.retryAttempts ∧
    ∀ p ∈ s.trace, 0 ≤ p.1 ∧ 0 ≤ p.2

end EC2

/-- Outcome of one SageMaker API call that either succeeds or raises a
ClientError with an error code. -/
inductive ApiCall where
  | ok
  | err (code : String)
deriving DecidableEq, Repr

/-- Whether the call succeeded. -/
def ApiCall.isOk : ApiCall → Bool
  | .ok => true
  | .err _ => false

namespace SM

/-- The `retry_errors` table of `handle_api_errors` in
`sagemaker-auto-creation.py`. -/
def retry_errors : List (String × String) :=
  [("ThrottlingException", "API request throttled"),
   ("ServiceUnavailable", "SageMaker service unavailable"),
   ("InternalFailure", "Internal SageMaker service error")]

/-- `handle_api_errors` of `sagemaker-auto-creation.py`: the retry
decision together with the reason string it logs. -/
def handle_api_errors (errorCode : String) : Bool × String :=
  match retry_errors.lookup errorCode with
  | some reason => (true, reason)
  | none => (false, "Unhandled error code: " ++ errorCode)

/-- Outcome of the `describe_endpoint_config` call made by
`config_exists`: the configuration is found, or a ClientError with the
given code is raised (the code `ValidationException` signals absence). -/
inductive DescribeOutcome where
  | found
  | clientError (code : String)
deriving DecidableEq, Repr

/-- Result of a Python function that returns a value of type `α` or
raises an exception carrying an error code. -/
inductive PyResult (α : Type) where
  | returns (v : α)
  | raises (code : String)
deriving DecidableEq, Repr

/-- `config_exists` of `sagemaker-auto-creation.py`: describe succeeds →
`True`; ClientError `ValidationException` → `False`; any other
ClientError is re-raised. -/
def config_exists (describe : DescribeOutcome) : PyResult Bool :=
  match describe with
  | .found => .returns true
  | .clientError c =>
    if c = "ValidationException" then .returns false else .raises c

/-- Observable result of `create_endpoint_config`: the returned value
(`None` or the configuration name) or a raised error, together with the
number of `create_endpoint_config` API calls issued. -/
structure ConfigPhase where
  outcome : PyResult (Option String)
  createCalls : Nat
deriving DecidableEq, Repr

/-- `create_endpoint_config` of `sagemaker-auto-creation.py`. The
configuration name is `model_name ++ "-config"`. Guards: if the local
`config.json` file exists, or `config_exists` reports the remote
configuration present, return `None` without calling create. Otherwise a
single create attempt: success returns the name; a ClientError is
re-raised when non-retryable and otherwise logged, falling through to
return `None` (no retry loop in this phase). -/
def create_endpoint_config (modelName : String) (configFileExists : Bool)
    (describe : DescribeOutcome) (create : ApiCall) : ConfigPhase :=
  if configFileExists then ⟨.returns none, 0⟩
  else
    match config_exists describe with
    | .raises c => ⟨.raises c, 0⟩
    | .returns true => ⟨.returns none, 0⟩
    | .returns false =>
      match create with
      | .ok => ⟨.returns (some (modelName ++ "-config")), 1⟩
      | .err c =>
        if (handle_api_errors c).1 then ⟨.returns none, 1⟩ else ⟨.raises c, 1⟩

/-- The mutable state of the `create_endpoint` while-loop with
instrumentation: `retry_attempts`, the number of `create_endpoint` API
calls issued, the number of sleeps, the number of
`delete_endpoint_config` cleanup calls, whether the cleanup call
succeeded (`none` while never invoked), and whether the SNS publish on
the success path succeeded (`none` while never attempted). -/
structure SmState where
  retryAttempts : Int
  calls : Nat
  sleeps : Nat
  deleteCalls : Nat
  deleteOk : Option Bool
  notifOk : Option Bool
deriving DecidableEq, Repr

/-- Result of `create_endpoint`: `returned` is the explicit `return`
after a successful create, `exhausted` is the implicit `None` return when
the loop condition fails, `raised` is a re-raised non-retryable
ClientError, `fuelOut` marks fuel exhaustion of the embedding. -/
inductive SmResult where
  | returned (s : SmState)
  | exhausted (s : SmState)
  | raised (errorCode : String) (s : SmState)
  | fuelOut (s : SmState)
deriving DecidableEq, Repr

/-- `create_endpoint` of `sagemaker-auto-creation.py`. `oracle i` is the
outcome of the i-th `create_endpoint` API call, `snsOk` whether the SNS
publish succeeds, `deleteOutcome` the outcome of the cleanup
`delete_endpoint_config` call. The loop runs while
`retry_attempts < max_retries`; on success it publishes (swallowing
publish failures) and returns; on a ClientError it increments
`retry_attempts`, and if `handle_api_errors` returns false it invokes the
cleanup delete (swallowing its failure) and re-raises the original
error, otherwise sleeps and loops. -/
def create_endpoint (oracle : Nat → ApiCall) (snsOk : Bool)
    (deleteOutcome : ApiCall) (maxRetries : Int) : Nat → SmState → SmResult
  | fuel, s =>
    if s.retryAttempts < maxRetries then
      match fuel with
      | 0 => .fuelOut s
      | fuel + 1 =>
        match oracle s.calls with
        | .ok => .returned { s with calls := s.calls + 1, notifOk := some snsOk }
        | .err c =>
          if (handle_api_errors c).1 then
            create_endpoint oracle snsOk deleteOutcome maxRetries fuel
              { s with calls := s.calls + 1, retryAttempts := s.retryAttempts + 1,
                       sleeps := s.sleeps + 1 }
          else
            .raised c
              { s with calls := s.calls + 1, retryAttempts := s.retryAttempts + 1,
                       deleteCalls := s.deleteCalls + 1,
                       deleteOk := some deleteOutcome.isOk }
    else .exhausted s

/-- The initial state of the `create_endpoint` loop. -/
def sm_init : SmState := ⟨0, 0, 0, 0, none, none⟩

/-- Observable result of `main` in `sagemaker-auto-creation.py`: the
process exit status (1 when an exception reaches the try/except, else 0),
whether the endpoint phase was invoked, the configuration-phase create
call count, and the endpoint-phase result when invoked. -/
structure MainResult where
  exitCode : Nat
  endpointPhaseInvoked : Bool
  configCreateCalls : Nat
  endpointResult : Option SmResult
deriving DecidableEq, Repr

/-- `main` of `sagemaker-auto-creation.py`: runs the configuration phase;
when it returns a configuration name, runs the endpoint phase; any
exception raised by either phase is caught and mapped to exit code 1,
otherwise the process exits with 0. The endpoint loop is run with fuel
`max_retries.toNat`, which the termination lemmas show is sufficient. -/
def sm_main (modelName : String) (configFileExists : Bool)
    (describe : DescribeOutcome) (configCreate : ApiCall)
    (endpointOracle : Nat → ApiCall) (snsOk : Bool) (deleteOutcome : ApiCall)
    (maxRetries : Int) : MainResult :=
  let cp := create_endpoint_config modelName configFileExists describe configCreate
  match cp.outcome with
  | .raises _ => ⟨1, false, cp.createCalls, none⟩
  | .returns none => ⟨0, false, cp.createCalls, none⟩
  | .returns (some _) =>
    let r := create_endpoint endpointOracle snsOk deleteOutcome maxRetries
      maxRetries.toNat sm_init
    match r with
    | .raised _ _ => ⟨1, true, cp.createCalls, some r⟩
    | _ => ⟨0, true, cp.createCalls, some r⟩

end SM
namespace EC2

theorem launch_exit (oracle : Nat → CreateOutcome) (snsOk : Nat → Bool)
    (instanceType : String) (maxRetry : Int) (fuel : Nat) (s : Ec2State)
    (hc : ¬(0 < s.instancesRemaining ∧ s.retryAttempts < maxRetry)) :
    launch_instances oracle snsOk instanceType maxRetry fuel s =
      .finished { s with trace := s.trace ++ [(s.instancesRemaining, s.retryAttempts)] } := by
  rw [launch_instances.eq_def]
  dsimp only
  rw [if_neg hc]

theorem launch_success (oracle : Nat → CreateOutcome) (snsOk : Nat → Bool)
    (instanceType : String) (maxRetry : Int) (fuel : Nat) (s : Ec2State)
    (instanceId : String)
    (hc : 0 < s.instancesRemaining ∧ s.retryAttempts < maxRetry)
    (ho : oracle s.calls = .success instanceId) :
    launch_instances oracle snsOk instanceType maxRetry (fuel + 1) s =
      launch_instances oracle snsOk instanceType maxRetry fuel
        { s with
          instancesRemaining := s.instancesRemaining - 1,
          retryAttempts := 0,
          calls := s.calls + 1,
          launched := s.launched ++ [instanceId],
          notifOk := if snsOk s.calls then s.notifOk + 1 else s.notifOk,
          notifFailed := if snsOk s.calls then s.notifFailed else s.notifFailed + 1,
          trace := s.trace ++ [(s.instancesRemaining, s.retryAttempts)] } := by
  conv_lhs => rw [launch_instances.eq_def]
  dsimp only
  rw [if_pos hc, ho]

theorem launch_retry (oracle : Nat → CreateOutcome) (snsOk : Nat → Bool)
    (instanceType : String) (maxRetry : Int) (fuel : Nat) (s : Ec2State)
    (errorCode : String)
    (hc : 0 < s.instancesRemaining ∧ s.retryAttempts < maxRetry)
    (ho : oracle s.calls = .failure errorCode)
    (hr : (handle_api_errors errorCode instanceType).1 = true) :
    launch_instances oracle snsOk instanceType maxRetry (fuel + 1) s =
      launch_instances oracle snsOk instanceType maxRetry fuel
        { s with
          retryAttempts := s.retryAttempts + 1,
          calls := s.calls + 1,
          sleeps := s.sleeps + 1,
          trace := s.trace ++ [(s.instancesRemaining, s.retryAttempts)] } := by
  conv_lhs => rw [launch_instances.eq_def]
  dsimp only
  rw [if_pos hc, ho]
  dsimp only
  rw [if_pos hr]

theorem launch_raise (oracle : Nat → CreateOutcome) (snsOk : Nat → Bool)
    (instanceType : String) (maxRetry : Int) (fuel : Nat) (s : Ec2State)
    (errorCode : String)
    (hc : 0 < s.instancesRemaining ∧ s.retryAttempts < maxRetry)
    (ho : oracle s.calls = .failure errorCode)
    (hr : (handle_api_errors errorCode instanceType).1 = false) :
    launch_instances oracle snsOk instanceType maxRetry (fuel + 1) s =
      .raised errorCode
        { s with
          retryAttempts := s.retryAttempts + 1,
          calls := s.calls + 1,
          trace := s.trace ++ [(s.instancesRemaining, s.retryAttempts)] } := by
  conv_lhs => rw [launch_instances.eq_def]
  dsimp only
  rw [if_pos hc, ho]
  dsimp only
  rw [if_neg (by simp [hr])]

theorem launch_stuck (oracle : Nat → CreateOutcome) (snsOk : Nat → Bool)
    (instanceType : String) (maxRetry : Int) (s : Ec2State)
    (hc : 0 < s.instancesRemaining ∧ s.retryAttempts < maxRetry) :
    launch_instances oracle snsOk instanceType maxRetry 0 s =
      .fuelOut { s with trace := s.trace ++ [(s.instancesRemaining, s.retryAttempts)] } := by
  rw [launch_instances.eq_def]
  dsimp only
  rw [if_pos hc]

end EC2
namespace EC2

theorem traced_inv (s : Ec2State) (hinv : EcInv s) :
    ∀ p ∈ s.trace ++ [(s.instancesRemaining, s.retryAttempts)], 0 ≤ p.1 ∧ 0 ≤ p.2 := by
  intro p hp
  rw [List.mem_append, List.mem_singleton] at hp
  rcases hp with hp | hp
  · exact hinv.2.2 p hp
  · subst hp; exact ⟨hinv.1, hinv.2.1⟩

theorem launch_spec (oracle : Nat → CreateOutcome) (snsOk : Nat → Bool)
    (instanceType : String) (maxRetry : Int) :
    ∀ (fuel : Nat) (s : Ec2State), EcInv s → ec2_measure maxRetry s ≤ fuel →
    (∃ s', launch_instances oracle snsOk instanceType maxRetry fuel s = .finished s' ∧
        EcInv s' ∧ ¬(0 < s'.instancesRemaining ∧ s'.retryAttempts < maxRetry)) ∨
    (∃ c s', launch_instances oracle snsOk instanceType maxRetry fuel s = .raised c s' ∧
        EcInv s' ∧ (handle_api_errors c instanceType).1 = false) := by
  intro fuel
  induction fuel with
  | zero =>
    intro s hinv hm
    have hc : ¬(0 < s.instancesRemaining ∧ s.retryAttempts < maxRetry) := by
      intro hc
      have h1 : 0 < s.instancesRemaining.toNat := by omega
      have h2 : 0 < s.instancesRemaining.toNat * (maxRetry.toNat + 1) :=
        Nat.mul_pos h1 (Nat.succ_pos _)
      unfold ec2_measure at hm
      omega
    rw [launch_exit _ _ _ _ _ _ hc]
    exact .inl ⟨_, rfl, ⟨hinv.1, hinv.2.1, traced_inv s hinv⟩, hc⟩
  | succ fuel ih =>
    intro s hinv hm
    obtain ⟨hrem, hatt, htr⟩ := hinv
    have hinv : EcInv s := ⟨hrem, hatt, htr⟩
    by_cases hc : 0 < s.instancesRemaining ∧ s.retryAttempts < maxRetry
    · unfold ec2_measure at hm
      cases ho : oracle s.calls with
      | success instanceId =>
        rw [launch_success _ _ _ _ _ _ _ hc ho]
        apply ih
        · exact ⟨by show (0:Int) ≤ s.instancesRemaining - 1; omega,
                 le_refl 0, traced_inv s hinv⟩
        · show (s.instancesRemaining - 1).toNat * (maxRetry.toNat + 1)
            + (maxRetry - 0).toNat ≤ fuel
          have h1 : 0 < s.instancesRemaining.toNat := by omega
          have he : (s.instancesRemaining - 1).toNat = s.instancesRemaining.toNat - 1 := by
            omega
          rw [he]
          have h2 : s.instancesRemaining.toNat * (maxRetry.toNat + 1)
              = (s.instancesRemaining.toNat - 1) * (maxRetry.toNat + 1) + (maxRetry.toNat + 1) := by
            conv_lhs =>
              rw [show s.instancesRemaining.toNat = (s.instancesRemaining.toNat - 1) + 1 from by
                omega]
            rw [Nat.succ_mul]
          have h3 : 1 ≤ (maxRetry - s.retryAttempts).toNat := by omega
          omega
      | failure errorCode =>
        cases hr : (handle_api_errors errorCode instanceType).1 with
        | true =>
          rw [launch_retry _ _ _ _ _ _ _ hc ho hr]
          apply ih
          · exact ⟨hinv.1, by show (0:Int) ≤ s.retryAttempts + 1; omega, traced_inv s hinv⟩
          · show s.instancesRemaining.toNat * (maxRetry.toNat + 1)
              + (maxRetry - (s.retryAttempts + 1)).toNat ≤ fuel
            have h3 : 1 ≤ (maxRetry - s.retryAttempts).toNat := by omega
            omega
        | false =>
          rw [launch_raise _ _ _ _ _ _ _ hc ho hr]
          exact .inr ⟨errorCode, _, rfl,
            ⟨hinv.1, by show (0:Int) ≤ s.retryAttempts + 1; omega, traced_inv s hinv⟩, hr⟩
    · rw [launch_exit _ _ _ _ _ _ hc]
      exact .inl ⟨_, rfl, ⟨hinv.1, hinv.2.1, traced_inv s hinv⟩, hc⟩

end EC2
/-- C1: for the compute-instance provisioning loop `launch_instances`, for
every input with desiredCount ≥ 1 and maxRetries ≥ 0 and any sequence of
create-call outcomes, running with the sufficient fuel bound terminates in
one of exactly three states: loop exit with `instances_remaining = 0`
(full success), loop exit with `retry_attempts ≥ max_retry` and
`instances_remaining > 0` (retry budget exhausted), or a re-raised
non-retryable error; and the two counters are nonnegative in the final
state and at every evaluation of the loop condition recorded in the
trace. -/
theorem c1_launch_terminal_states (oracle : Nat → CreateOutcome) (snsOk : Nat → Bool)
    (instanceType : String) (targetCount maxRetry : Int)
    (hcnt : 1 ≤ targetCount) (hmr : 0 ≤ maxRetry) :
    (∃ s', EC2.launch_instances oracle snsOk instanceType maxRetry
        (EC2.ec2_fuel targetCount maxRetry) (EC2.ec2_init targetCount) = .finished s' ∧
      (s'.instancesRemaining = 0 ∨
        (maxRetry ≤ s'.retryAttempts ∧ 0 < s'.instancesRemaining)) ∧
      0 ≤ s'.instancesRemaining ∧ 0 ≤ s'.retryAttempts ∧
      (∀ p ∈ s'.trace, 0 ≤ p.1 ∧ 0 ≤ p.2)) ∨
    (∃ c s', EC2.launch_instances oracle snsOk instanceType maxRetry
        (EC2.ec2_fuel targetCount maxRetry) (EC2.ec2_init targetCount) = .raised c s' ∧
      (EC2.handle_api_errors c instanceType).1 = false ∧
      0 ≤ s'.instancesRemaining ∧ 0 ≤ s'.retryAttempts ∧
      (∀ p ∈ s'.trace, 0 ≤ p.1 ∧ 0 ≤ p.2)) := by
  have hinv : EC2.EcInv (EC2.ec2_init targetCount) := by
    refine ⟨by simp [EC2.ec2_init]; omega, by simp [EC2.ec2_init], ?_⟩
    intro p hp
    simp [EC2.ec2_init] at hp
  have hm : EC2.ec2_measure maxRetry (EC2.ec2_init targetCount)
      ≤ EC2.ec2_fuel targetCount maxRetry := by
    show targetCount.toNat * (maxRetry.toNat + 1) + (maxRetry - 0).toNat
      ≤ targetCount.toNat * (maxRetry.toNat + 1) + maxRetry.toNat
    omega
  rcases EC2.launch_spec oracle snsOk instanceType maxRetry _ _ hinv hm with
    ⟨s', heq, hinv', hstop⟩ | ⟨c, s', heq, hinv', hfalse⟩
  · left
    refine ⟨s', heq, ?_, hinv'.1, hinv'.2.1, hinv'.2.2⟩
    by_cases h0 : s'.instancesRemaining = 0
    · exact .inl h0
    · have hrpos : 0 < s'.instancesRemaining :=
        lt_of_le_of_ne hinv'.1 (Ne.symm h0)
      refine .inr ⟨?_, hrpos⟩
      by_contra hlt
      exact hstop ⟨hrpos, by omega⟩
  · exact .inr ⟨c, s', heq, hfalse, hinv'.1, hinv'.2.1, hinv'.2.2⟩

/-- Witness for C1 at a concrete input: one instance requested, one
retry allowed, an always-succeeding create call. -/
theorem c1_witness :
    (1:Int) ≤ 1 ∧ (0:Int) ≤ 1 ∧
    ((∃ s', EC2.launch_instances (fun _ => .success "i-0") (fun _ => true) "g5.12xlarge" 1
        (EC2.ec2_fuel 1 1) (EC2.ec2_init 1) = .finished s' ∧
      (s'.instancesRemaining = 0 ∨
        ((1:Int) ≤ s'.retryAttempts ∧ 0 < s'.instancesRemaining)) ∧
      0 ≤ s'.instancesRemaining ∧ 0 ≤ s'.retryAttempts ∧
      (∀ p ∈ s'.trace, 0 ≤ p.1 ∧ 0 ≤ p.2)) ∨
    (∃ c s', EC2.launch_instances (fun _ => .success "i-0") (fun _ => true) "g5.12xlarge" 1
        (EC2.ec2_fuel 1 1) (EC2.ec2_init 1) = .raised c s' ∧
      (EC2.handle_api_errors c "g5.12xlarge").1 = false ∧
      0 ≤ s'.instancesRemaining ∧ 0 ≤ s'.retryAttempts ∧
      (∀ p ∈ s'.trace, 0 ≤ p.1 ∧ 0 ≤ p.2))) :=
  ⟨by norm_num, by norm_num,
    c1_launch_terminal_states (fun _ => .success "i-0") (fun _ => true) "g5.12xlarge" 1 1
      (by norm_num) (by norm_num)⟩
/-- C2: each `handle_api_errors` is a pure function of the error code:
for every code/reason pair in the known-transient table of its resource
kind it returns retryable true with the associated reason; for every code
outside the table it returns retryable false with an unhandled-code
message; and the two tables are exactly the capacity/throttling/
unsupported-type codes (EC2) and the throttling/service-unavailable/
internal-failure codes (SageMaker), so the classifier is parameterized by
resource kind. -/
theorem c2_error_classifier (code reason instanceType : String) :
    ((code, reason) ∈ EC2.retry_errors instanceType →
      EC2.handle_api_errors code instanceType = (true, reason)) ∧
    (code ∉ (EC2.retry_errors instanceType).map Prod.fst →
      EC2.handle_api_errors code instanceType =
        (false, "Unhandled error code: " ++ code)) ∧
    ((code, reason) ∈ SM.retry_errors →
      SM.handle_api_errors code = (true, reason)) ∧
    (code ∉ SM.retry_errors.map Prod.fst →
      SM.handle_api_errors code = (false, "Unhandled error code: " ++ code)) ∧
    (EC2.retry_errors instanceType).map Prod.fst =
      ["IdempotentParameterMismatch", "InsufficientInstanceCapacity",
       "RequestLimitExceeded", "ServiceUnavailable", "Unsupported"] ∧
    SM.retry_errors.map Prod.fst =
      ["ThrottlingException", "ServiceUnavailable", "InternalFailure"] := by
  refine ⟨?_, ?_, ?_, ?_, by simp [EC2.retry_errors], by simp [SM.retry_errors]⟩
  · intro h
    simp only [EC2.retry_errors, List.mem_cons, List.mem_singleton,
      List.not_mem_nil, or_false, Prod.mk.injEq] at h
    rcases h with ⟨h1, h2⟩ | ⟨h1, h2⟩ | ⟨h1, h2⟩ | ⟨h1, h2⟩ | ⟨h1, h2⟩ <;>
      subst h1 <;> subst h2 <;> rfl
  · intro h
    simp only [EC2.retry_errors, List.map_cons, List.map_nil, List.mem_cons,
      List.not_mem_nil, or_false, not_or] at h
    obtain ⟨h1, h2, h3, h4, h5⟩ := h
    have e1 : (code == "IdempotentParameterMismatch") = false := beq_eq_false_iff_ne.mpr h1
    have e2 : (code == "InsufficientInstanceCapacity") = false := beq_eq_false_iff_ne.mpr h2
    have e3 : (code == "RequestLimitExceeded") = false := beq_eq_false_iff_ne.mpr h3
    have e4 : (code == "ServiceUnavailable") = false := beq_eq_false_iff_ne.mpr h4
    have e5 : (code == "Unsupported") = false := beq_eq_false_iff_ne.mpr h5
    simp [EC2.handle_api_errors, EC2.retry_errors, List.lookup, e1, e2, e3, e4, e5]
  · intro h
    simp only [SM.retry_errors, List.mem_cons, List.mem_singleton,
      List.not_mem_nil, or_false, Prod.mk.injEq] at h
    rcases h with ⟨h1, h2⟩ | ⟨h1, h2⟩ | ⟨h1, h2⟩ <;>
      subst h1 <;> subst h2 <;> rfl
  · intro h
    simp only [SM.retry_errors, List.map_cons, List.map_nil, List.mem_cons,
      List.not_mem_nil, or_false, not_or] at h
    obtain ⟨h1, h2, h3⟩ := h
    have e1 : (code == "ThrottlingException") = false := beq_eq_false_iff_ne.mpr h1
    have e2 : (code == "ServiceUnavailable") = false := beq_eq_false_iff_ne.mpr h2
    have e3 : (code == "InternalFailure") = false := beq_eq_false_iff_ne.mpr h3
    simp [SM.handle_api_errors, SM.retry_errors, List.lookup, e1, e2, e3]

/-- Witness for C2 at concrete codes: the throttling code is retryable
for the SageMaker classifier with its table reason, and the same code is
unhandled for the EC2 classifier, whose table does not contain it. -/
theorem c2_witness :
    SM.handle_api_errors "ThrottlingException" = (true, "API request throttled") ∧
    EC2.handle_api_errors "ThrottlingException" "g5.12xlarge" =
      (false, "Unhandled error code: ThrottlingException") :=
  ⟨(c2_error_classifier "ThrottlingException" "API request throttled" "g5.12xlarge").2.2.1
      (by simp [SM.retry_errors]),
   (c2_error_classifier "ThrottlingException" "API request throttled" "g5.12xlarge").2.1
      (by simp [EC2.retry_errors])⟩
namespace EC2

theorem launch_retry_steps (oracle : Nat → CreateOutcome) (snsOk : Nat → Bool)
    (instanceType : String) (maxRetry : Int) :
    ∀ (j : Nat) (fuel : Nat) (s : Ec2State),
    (∀ i, i < j → ∃ c, oracle (s.calls + i) = .failure c ∧
      (handle_api_errors c instanceType).1 = true) →
    0 < s.instancesRemaining →
    s.retryAttempts + (j : Int) ≤ maxRetry →
    j ≤ fuel →
    ∃ s', launch_instances oracle snsOk instanceType maxRetry fuel s
        = launch_instances oracle snsOk instanceType maxRetry (fuel - j) s' ∧
      s'.instancesRemaining = s.instancesRemaining ∧
      s'.retryAttempts = s.retryAttempts + (j : Int) ∧
      s'.calls = s.calls + j ∧
      s'.launched = s.launched ∧
      s'.sleeps = s.sleeps + j := by
  intro j
  induction j with
  | zero =>
    intro fuel s _ _ _ _
    exact ⟨s, by rw [Nat.sub_zero], by omega, by omega, by omega, rfl, by omega⟩
  | succ j ih =>
    intro fuel s hfail hrem hbound hfuel
    obtain ⟨f, hf⟩ : ∃ f, fuel = f + 1 := ⟨fuel - 1, by omega⟩
    subst hf
    obtain ⟨c, hc1, hc2⟩ := hfail 0 (by omega)
    rw [Nat.add_zero] at hc1
    have hcond : 0 < s.instancesRemaining ∧ s.retryAttempts < maxRetry :=
      ⟨hrem, by omega⟩
    rw [launch_retry _ _ _ _ _ _ _ hcond hc1 hc2]
    obtain ⟨s', heq, p1, p2, p3, p4, p5⟩ := ih f
      { s with retryAttempts := s.retryAttempts + 1,
               calls := s.calls + 1, sleeps := s.sleeps + 1,
               trace := s.trace ++ [(s.instancesRemaining, s.retryAttempts)] }
      (by
        intro i hi
        obtain ⟨d, hd1, hd2⟩ := hfail (i + 1) (by omega)
        refine ⟨d, ?_, hd2⟩
        show oracle (s.calls + 1 + i) = .failure d
        rw [show s.calls + 1 + i = s.calls + (i + 1) from by omega]
        exact hd1)
      (by show 0 < s.instancesRemaining; exact hrem)
      (by show s.retryAttempts + 1 + (j : Int) ≤ maxRetry; omega)
      (by omega)
    refine ⟨s', ?_, ?_, ?_, ?_, ?_, ?_⟩
    · rw [heq, show f + 1 - (j + 1) = f - j from by omega]
    · rw [p1]
    · rw [p2]; show s.retryAttempts + 1 + (j:Int) = s.retryAttempts + ((j:Nat) + 1 : Int)
      omega
    · rw [p3]; show s.calls + 1 + j = s.calls + (j + 1); omega
    · rw [p4]
    · rw [p5]; show s.sleeps + 1 + j = s.sleeps + (j + 1); omega

end EC2

namespace SM

theorem endpoint_exit (oracle : Nat → ApiCall) (snsOk : Bool) (deleteOutcome : ApiCall)
    (maxRetries : Int) (fuel : Nat) (s : SmState)
    (hc : ¬(s.retryAttempts < maxRetries)) :
    create_endpoint oracle snsOk deleteOutcome maxRetries fuel s = .exhausted s := by
  rw [create_endpoint.eq_def]
  dsimp only
  rw [if_neg hc]

theorem endpoint_success (oracle : Nat → ApiCall) (snsOk : Bool) (deleteOutcome : ApiCall)
    (maxRetries : Int) (fuel : Nat) (s : SmState)
    (hc : s.retryAttempts < maxRetries)
    (ho : oracle s.calls = .ok) :
    create_endpoint oracle snsOk deleteOutcome maxRetries (fuel + 1) s =
      .returned { s with calls := s.calls + 1, notifOk := some snsOk } := by
  conv_lhs => rw [create_endpoint.eq_def]
  dsimp only
  rw [if_pos hc, ho]

theorem endpoint_retry (oracle : Nat → ApiCall) (snsOk : Bool) (deleteOutcome : ApiCall)
    (maxRetries : Int) (fuel : Nat) (s : SmState) (c : String)
    (hc : s.retryAttempts < maxRetries)
    (ho : oracle s.calls = .err c)
    (hr : (handle_api_errors c).1 = true) :
    create_endpoint oracle snsOk deleteOutcome maxRetries (fuel + 1) s =
      create_endpoint oracle snsOk deleteOutcome maxRetries fuel
        { s with retryAttempts := s.retryAttempts + 1,
                 calls := s.calls + 1, sleeps := s.sleeps + 1 } := by
  conv_lhs => rw [create_endpoint.eq_def]
  dsimp only
  rw [if_pos hc, ho]
  dsimp only
  rw [if_pos hr]

theorem endpoint_raise (oracle : Nat → ApiCall) (snsOk : Bool) (deleteOutcome : ApiCall)
    (maxRetries : Int) (fuel : Nat) (s : SmState) (c : String)
    (hc : s.retryAttempts < maxRetries)
    (ho : oracle s.calls = .err c)
    (hr : (handle_api_errors c).1 = false) :
    create_endpoint oracle snsOk deleteOutcome maxRetries (fuel + 1) s =
      .raised c
        { s with retryAttempts := s.retryAttempts + 1,
                 calls := s.calls + 1,
                 deleteCalls := s.deleteCalls + 1,
                 deleteOk := some deleteOutcome.isOk } := by
  conv_lhs => rw [create_endpoint.eq_def]
  dsimp only
  rw [if_pos hc, ho]
  dsimp only
  rw [if_neg (by simp [hr])]

theorem endpoint_retry_steps (oracle : Nat → ApiCall) (snsOk : Bool)
    (deleteOutcome : ApiCall) (maxRetries : Int) :
    ∀ (j : Nat) (fuel : Nat) (s : SmState),
    (∀ i, i < j → ∃ c, oracle (s.calls + i) = .err c ∧
      (handle_api_errors c).1 = true) →
    s.retryAttempts + (j : Int) ≤ maxRetries →
    j ≤ fuel →
    ∃ s', create_endpoint oracle snsOk deleteOutcome maxRetries fuel s
        = create_endpoint oracle snsOk deleteOutcome maxRetries (fuel - j) s' ∧
      s'.retryAttempts = s.retryAttempts + (j : Int) ∧
      s'.calls = s.calls + j ∧
      s'.sleeps = s.sleeps + j ∧
      s'.deleteCalls = s.deleteCalls ∧
      s'.deleteOk = s.deleteOk ∧
      s'.notifOk = s.notifOk := by
  intro j
  induction j with
  | zero =>
    intro fuel s _ _ _
    exact ⟨s, by rw [Nat.sub_zero], by omega, by omega, by omega, rfl, rfl, rfl⟩
  | succ j ih =>
    intro fuel s hfail hbound hfuel
    obtain ⟨f, hf⟩ : ∃ f, fuel = f + 1 := ⟨fuel - 1, by omega⟩
    subst hf
    obtain ⟨c, hc1, hc2⟩ := hfail 0 (by omega)
    rw [Nat.add_zero] at hc1
    have hcond : s.retryAttempts < maxRetries := by omega
    rw [endpoint_retry _ _ _ _ _ _ _ hcond hc1 hc2]
    obtain ⟨s', heq, p1, p2, p3, p4, p5, p6⟩ := ih f
      { s with retryAttempts := s.retryAttempts + 1,
               calls := s.calls + 1, sleeps := s.sleeps + 1 }
      (by
        intro i hi
        obtain ⟨d, hd1, hd2⟩ := hfail (i + 1) (by omega)
        refine ⟨d, ?_, hd2⟩
        show oracle (s.calls + 1 + i) = .err d
        rw [show s.calls + 1 + i = s.calls + (i + 1) from by omega]
        exact hd1)
      (by show s.retryAttempts + 1 + (j : Int) ≤ maxRetries; omega)
      (by omega)
    refine ⟨s', ?_, ?_, ?_, ?_, ?_, ?_, ?_⟩
    · rw [heq, show f + 1 - (j + 1) = f - j from by omega]
    · rw [p1]; show s.retryAttempts + 1 + (j:Int) = s.retryAttempts + ((j:Nat) + 1 : Int)
      omega
    · rw [p2]; show s.calls + 1 + j = s.calls + (j + 1); omega
    · rw [p3]; show s.sleeps + 1 + j = s.sleeps + (j + 1); omega
    · rw [p4]
    · rw [p5]
    · rw [p6]

end SM
/-- C3: with `maxRetries = N ≥ 1` and a create call that fails with a
retryable code on every attempt, each provisioning loop performs exactly N
create attempts and exits without signaling per-unit success (the EC2 loop
exits with nothing launched, the SageMaker loop exits by exhaustion with
no success notification), and the number of sleeps equals N, satisfying
the sleeps-at-most-N-minus-1-or-exactly-N disjunction via its second
branch. -/
theorem c3_exhaustion_attempt_count (oracleE : Nat → CreateOutcome)
    (oracleS : Nat → ApiCall) (snsE : Nat → Bool) (snsS : Bool)
    (deleteOutcome : ApiCall) (instanceType : String) (targetCount N : Int)
    (hN : 1 ≤ N) (hcnt : 1 ≤ targetCount)
    (hfailE : ∀ i, ∃ c, oracleE i = .failure c ∧
      (EC2.handle_api_errors c instanceType).1 = true)
    (hfailS : ∀ i, ∃ c, oracleS i = .err c ∧ (SM.handle_api_errors c).1 = true) :
    (∃ t, EC2.launch_instances oracleE snsE instanceType N
        (EC2.ec2_fuel targetCount N) (EC2.ec2_init targetCount) = .finished t ∧
      t.calls = N.toNat ∧ t.launched = [] ∧
      t.instancesRemaining = targetCount ∧
      (t.sleeps ≤ N.toNat - 1 ∨ t.sleeps = N.toNat)) ∧
    (∃ e, SM.create_endpoint oracleS snsS deleteOutcome N N.toNat SM.sm_init
        = .exhausted e ∧
      e.calls = N.toNat ∧ e.notifOk = none ∧
      (e.sleeps ≤ N.toNat - 1 ∨ e.sleeps = N.toNat)) := by
  constructor
  · obtain ⟨s', heq, p1, p2, p3, p4, p5⟩ :=
      EC2.launch_retry_steps oracleE snsE instanceType N N.toNat
        (EC2.ec2_fuel targetCount N) (EC2.ec2_init targetCount)
        (by
          intro i _
          obtain ⟨c, h1, h2⟩ := hfailE i
          refine ⟨c, ?_, h2⟩
          show oracleE (0 + i) = CreateOutcome.failure c
          rwa [Nat.zero_add])
        (by show (0:Int) < targetCount; omega)
        (by show (0:Int) + (N.toNat : Int) ≤ N; omega)
        (by show N.toNat ≤ targetCount.toNat * (N.toNat + 1) + N.toNat; omega)
    have hstop : ¬(0 < s'.instancesRemaining ∧ s'.retryAttempts < N) := by
      intro hcond
      rw [p2] at hcond
      have : ((0:Int) : Int) + (N.toNat : Int) < N := by
        calc ((0:Int)) + (N.toNat : Int) = (EC2.ec2_init targetCount).retryAttempts
            + (N.toNat : Int) := rfl
        _ < N := hcond.2
      omega
    rw [heq, EC2.launch_exit _ _ _ _ _ _ hstop]
    refine ⟨_, rfl, ?_, ?_, ?_, ?_⟩
    · show s'.calls = N.toNat
      rw [p3]
      show (EC2.ec2_init targetCount).calls + N.toNat = N.toNat
      show 0 + N.toNat = N.toNat
      omega
    · show s'.launched = []
      rw [p4]
      rfl
    · show s'.instancesRemaining = targetCount
      rw [p1]
      rfl
    · right
      show s'.sleeps = N.toNat
      rw [p5]
      show 0 + N.toNat = N.toNat
      omega
  · obtain ⟨s', heq, p1, p2, p3, p4, p5, p6⟩ :=
      SM.endpoint_retry_steps oracleS snsS deleteOutcome N N.toNat N.toNat SM.sm_init
        (by
          intro i _
          obtain ⟨c, h1, h2⟩ := hfailS i
          refine ⟨c, ?_, h2⟩
          show oracleS (0 + i) = ApiCall.err c
          rwa [Nat.zero_add])
        (by show (0:Int) + (N.toNat : Int) ≤ N; omega)
        (le_refl _)
    have hstop : ¬(s'.retryAttempts < N) := by
      rw [p1]
      show ¬((0:Int) + (N.toNat : Int) < N)
      omega
    rw [heq, SM.endpoint_exit _ _ _ _ _ _ hstop]
    refine ⟨s', rfl, ?_, ?_, ?_⟩
    · rw [p2]
      show 0 + N.toNat = N.toNat
      omega
    · rw [p6]
      rfl
    · right
      rw [p3]
      show 0 + N.toNat = N.toNat
      omega

/-- Witness for C3 at a concrete input: two retries allowed, one instance
requested, every attempt failing with a retryable throttling code. -/
theorem c3_witness :
    (∃ t, EC2.launch_instances (fun _ => .failure "RequestLimitExceeded")
        (fun _ => true) "g5.12xlarge" 2
        (EC2.ec2_fuel 1 2) (EC2.ec2_init 1) = .finished t ∧
      t.calls = (2:Int).toNat ∧ t.launched = [] ∧
      t.instancesRemaining = 1 ∧
      (t.sleeps ≤ (2:Int).toNat - 1 ∨ t.sleeps = (2:Int).toNat)) ∧
    (∃ e, SM.create_endpoint (fun _ => .err "ThrottlingException") true .ok 2
        (2:Int).toNat SM.sm_init = .exhausted e ∧
      e.calls = (2:Int).toNat ∧ e.notifOk = none ∧
      (e.sleeps ≤ (2:Int).toNat - 1 ∨ e.sleeps = (2:Int).toNat)) :=
  c3_exhaustion_attempt_count (fun _ => .failure "RequestLimitExceeded")
    (fun _ => .err "ThrottlingException") (fun _ => true) true .ok "g5.12xlarge" 1 2
    (by norm_num) (by norm_num)
    (fun _ => ⟨"RequestLimitExceeded", rfl, rfl⟩)
    (fun _ => ⟨"ThrottlingException", rfl, rfl⟩)
/-- C6: in the compute-instance loop, when the create call succeeds after
exactly k retryable failures with k < maxRetries, the loop decrements
`instances_remaining` by one and resets `retry_attempts` to 0, and
continues as the same loop on the resulting state, so the next unit is
processed with the full retry budget. -/
theorem c6_success_resets_budget (oracle : Nat → CreateOutcome) (snsOk : Nat → Bool)
    (instanceType : String) (targetCount maxRetry : Int) (k : Nat)
    (instanceId : String) (fuel : Nat)
    (hk : (k : Int) < maxRetry) (hcnt : 1 ≤ targetCount)
    (hfail : ∀ i, i < k → ∃ c, oracle i = .failure c ∧
      (EC2.handle_api_errors c instanceType).1 = true)
    (hsucc : oracle k = .success instanceId)
    (hfuel : k + 1 ≤ fuel) :
    ∃ s', EC2.launch_instances oracle snsOk instanceType maxRetry fuel
        (EC2.ec2_init targetCount)
      = EC2.launch_instances oracle snsOk instanceType maxRetry (fuel - (k + 1)) s' ∧
      s'.instancesRemaining = targetCount - 1 ∧
      s'.retryAttempts = 0 ∧
      s'.calls = k + 1 ∧
      s'.launched = [instanceId] ∧
      s'.sleeps = k := by
  obtain ⟨s₁, heq, p1, p2, p3, p4, p5⟩ :=
    EC2.launch_retry_steps oracle snsOk instanceType maxRetry k fuel
      (EC2.ec2_init targetCount)
      (by
        intro i hi
        obtain ⟨c, h1, h2⟩ := hfail i hi
        refine ⟨c, ?_, h2⟩
        show oracle (0 + i) = CreateOutcome.failure c
        rwa [Nat.zero_add])
      (by show (0:Int) < targetCount; omega)
      (by show (0:Int) + (k : Int) ≤ maxRetry; omega)
      (by omega)
  have hrem : s₁.instancesRemaining = targetCount := by rw [p1]; rfl
  have hatt : s₁.retryAttempts = (k : Int) := by
    rw [p2]
    show (0:Int) + (k : Int) = (k : Int)
    omega
  have hcalls : s₁.calls = k := by
    rw [p3]
    show 0 + k = k
    omega
  have hcond : 0 < s₁.instancesRemaining ∧ s₁.retryAttempts < maxRetry := by
    rw [hrem, hatt]
    exact ⟨by omega, hk⟩
  have ho : oracle s₁.calls = .success instanceId := by rw [hcalls]; exact hsucc
  obtain ⟨f, hf⟩ : ∃ f, fuel - k = f + 1 := ⟨fuel - k - 1, by omega⟩
  rw [heq, hf, EC2.launch_success _ _ _ _ _ _ _ hcond ho,
    show fuel - (k + 1) = f from by omega]
  refine ⟨_, rfl, ?_, ?_, ?_, ?_, ?_⟩
  · show s₁.instancesRemaining - 1 = targetCount - 1
    rw [hrem]
  · rfl
  · show s₁.calls + 1 = k + 1
    rw [hcalls]
  · show s₁.launched ++ [instanceId] = [instanceId]
    rw [p4]
    rfl
  · show s₁.sleeps = k
    rw [p5]
    show 0 + k = k
    omega

/-- Witness for C6 at a concrete input: two instances requested, two
retries allowed, one retryable throttling failure followed by a success. -/
theorem c6_witness :
    ∃ s', EC2.launch_instances
        (fun i => if i = 0 then .failure "RequestLimitExceeded" else .success "i-9")
        (fun _ => true) "g5.12xlarge" 2 5 (EC2.ec2_init 2)
      = EC2.launch_instances
        (fun i => if i = 0 then .failure "RequestLimitExceeded" else .success "i-9")
        (fun _ => true) "g5.12xlarge" 2 (5 - (1 + 1)) s' ∧
      s'.instancesRemaining = 2 - 1 ∧
      s'.retryAttempts = 0 ∧
      s'.calls = 1 + 1 ∧
      s'.launched = ["i-9"] ∧
      s'.sleeps = 1 :=
  c6_success_resets_budget
    (fun i => if i = 0 then .failure "RequestLimitExceeded" else .success "i-9")
    (fun _ => true) "g5.12xlarge" 2 2 1 "i-9" 5
    (by norm_num) (by norm_num)
    (by
      intro i hi
      interval_cases i
      exact ⟨"RequestLimitExceeded", rfl, rfl⟩)
    rfl (by norm_num)

namespace EC2

theorem launch_success_steps (oracle : Nat → CreateOutcome) (snsOk : Nat → Bool)
    (instanceType : String) (maxRetry : Int)
    (hmr : 1 ≤ maxRetry) (hall : ∀ i, ∃ instanceId, oracle i = .success instanceId) :
    ∀ (n : Nat) (fuel : Nat) (s : Ec2State),
    s.instancesRemaining = (n : Int) → s.retryAttempts = 0 → n ≤ fuel →
    ∃ t, launch_instances oracle snsOk instanceType maxRetry fuel s = .finished t ∧
      t.instancesRemaining = 0 ∧
      t.launched.length = s.launched.length + n ∧
      t.calls = s.calls + n ∧
      t.sleeps = s.sleeps := by
  intro n
  induction n with
  | zero =>
    intro fuel s h0 ha _
    have hstop : ¬(0 < s.instancesRemaining ∧ s.retryAttempts < maxRetry) := by
      rw [h0]
      simp
    rw [launch_exit _ _ _ _ _ _ hstop]
    refine ⟨_, rfl, ?_, ?_, ?_, ?_⟩
    · show s.instancesRemaining = 0
      rw [h0]
      rfl
    · show s.launched.length = s.launched.length + 0
      omega
    · show s.calls = s.calls + 0
      omega
    · rfl
  | succ n ih =>
    intro fuel s h0 ha hf
    have hcond : 0 < s.instancesRemaining ∧ s.retryAttempts < maxRetry := by
      rw [h0, ha]
      constructor
      · omega
      · omega
    obtain ⟨instanceId, ho⟩ := hall s.calls
    obtain ⟨f, hfe⟩ : ∃ f, fuel = f + 1 := ⟨fuel - 1, by omega⟩
    subst hfe
    rw [launch_success _ _ _ _ _ _ _ hcond ho]
    obtain ⟨t, heq, q1, q2, q3, q4⟩ := ih f
      { s with
        calls := s.calls + 1,
        launched := s.launched ++ [instanceId],
        notifOk := if snsOk s.calls then s.notifOk + 1 else s.notifOk,
        notifFailed := if snsOk s.calls then s.notifFailed else s.notifFailed + 1,
        instancesRemaining := s.instancesRemaining - 1,
        retryAttempts := 0,
        trace := s.trace ++ [(s.instancesRemaining, s.retryAttempts)] }
      (by show s.instancesRemaining - 1 = (n : Int); rw [h0]; push_cast; omega)
      rfl
      (by omega)
    refine ⟨t, heq, q1, ?_, ?_, q4⟩
    · rw [q2]
      show (s.launched ++ [instanceId]).length + n = s.launched.length + (n + 1)
      rw [List.length_append]
      simp
      omega
    · rw [q3]
      show s.calls + 1 + n = s.calls + (n + 1)
      omega

/-- Number of successfully launched instances recorded in a loop result. -/
def launched_count : Ec2Result → Nat
  | .finished s => s.launched.length
  | .raised _ s => s.launched.length
  | .fuelOut s => s.launched.length

end EC2

/-- C7 counterexample: with desiredCount = 1 and an always-succeeding
create call but max_retry = 0, the loop condition
`retry_attempts < max_retry` is false at entry, so the loop performs zero
successful creations rather than the one the claim demands. -/
theorem c7_counterexample :
    EC2.launched_count (EC2.launch_instances (fun _ => .success "i-0")
      (fun _ => true) "g5.12xlarge" 0 (EC2.ec2_fuel 1 0) (EC2.ec2_init 1)) = 0 := by
  decide

/-- C7 (amended with maxRetries ≥ 1): for every desiredCount = C ≥ 1 and
max_retry ≥ 1, an always-succeeding create call makes the loop perform
exactly C successful creations (C create calls, C launched instances,
remaining count 0) with zero sleeps. -/
theorem c7_all_success (oracle : Nat → CreateOutcome) (snsOk : Nat → Bool)
    (instanceType : String) (targetCount maxRetry : Int)
    (hcnt : 1 ≤ targetCount) (hmr : 1 ≤ maxRetry)
    (hall : ∀ i, ∃ instanceId, oracle i = .success instanceId) :
    ∃ t, EC2.launch_instances oracle snsOk instanceType maxRetry
        (EC2.ec2_fuel targetCount maxRetry) (EC2.ec2_init targetCount) = .finished t ∧
      t.instancesRemaining = 0 ∧
      t.launched.length = targetCount.toNat ∧
      t.calls = targetCount.toNat ∧
      t.sleeps = 0 := by
  obtain ⟨t, heq, q1, q2, q3, q4⟩ :=
    EC2.launch_success_steps oracle snsOk instanceType maxRetry hmr hall
      targetCount.toNat (EC2.ec2_fuel targetCount maxRetry) (EC2.ec2_init targetCount)
      (by show targetCount = ((targetCount.toNat : Nat) : Int); omega)
      rfl
      (by
        show targetCount.toNat ≤ targetCount.toNat * (maxRetry.toNat + 1) + maxRetry.toNat
        have := Nat.le_mul_of_pos_right targetCount.toNat
          (show 0 < maxRetry.toNat + 1 from by omega)
        omega)
  refine ⟨t, heq, q1, ?_, ?_, ?_⟩
  · rw [q2]
    show ([] : List String).length + targetCount.toNat = targetCount.toNat
    simp
  · rw [q3]
    show 0 + targetCount.toNat = targetCount.toNat
    omega
  · rw [q4]
    rfl

/-- Witness for C7 at a concrete input: two instances requested, one
retry allowed, always-succeeding create call. -/
theorem c7_witness :
    ∃ t, EC2.launch_instances (fun _ => .success "i-0") (fun _ => true)
        "g5.12xlarge" 1 (EC2.ec2_fuel 2 1) (EC2.ec2_init 2) = .finished t ∧
      t.instancesRemaining = 0 ∧
      t.launched.length = (2:Int).toNat ∧
      t.calls = (2:Int).toNat ∧
      t.sleeps = 0 :=
  c7_all_success (fun _ => .success "i-0") (fun _ => true) "g5.12xlarge" 2 1
    (by norm_num) (by norm_num) (fun _ => ⟨"i-0", rfl⟩)
/-- C4: in the endpoint phase, when a create attempt fails with a
non-retryable error after k earlier retryable failures, the loop result is
the original error re-raised, with the compensating
`delete_endpoint_config` call invoked exactly once; this holds whether the
delete succeeds or fails (the delete outcome is only recorded, never
replacing the surfaced error). -/
theorem c4_cleanup_on_nonretryable (oracle : Nat → ApiCall) (snsOk : Bool)
    (deleteOutcome : ApiCall) (maxRetries : Int) (k : Nat) (c : String)
    (hfail : ∀ i, i < k → ∃ d, oracle i = .err d ∧ (SM.handle_api_errors d).1 = true)
    (hk : (k : Int) < maxRetries)
    (ho : oracle k = .err c)
    (hnr : (SM.handle_api_errors c).1 = false) :
    ∃ s', SM.create_endpoint oracle snsOk deleteOutcome maxRetries
        maxRetries.toNat SM.sm_init = .raised c s' ∧
      s'.deleteCalls = 1 ∧
      s'.deleteOk = some deleteOutcome.isOk ∧
      s'.notifOk = none := by
  obtain ⟨s₁, heq, p1, p2, p3, p4, p5, p6⟩ :=
    SM.endpoint_retry_steps oracle snsOk deleteOutcome maxRetries k
      maxRetries.toNat SM.sm_init
      (by
        intro i hi
        obtain ⟨d, h1, h2⟩ := hfail i hi
        refine ⟨d, ?_, h2⟩
        show oracle (0 + i) = ApiCall.err d
        rwa [Nat.zero_add])
      (by show (0:Int) + (k : Int) ≤ maxRetries; omega)
      (by omega)
  have hatt : s₁.retryAttempts = (k : Int) := by
    rw [p1]
    show (0:Int) + (k : Int) = (k : Int)
    omega
  have hcalls : s₁.calls = k := by
    rw [p2]
    show 0 + k = k
    omega
  have hcond : s₁.retryAttempts < maxRetries := by rw [hatt]; exact hk
  have ho' : oracle s₁.calls = .err c := by rw [hcalls]; exact ho
  obtain ⟨f, hf⟩ : ∃ f, maxRetries.toNat - k = f + 1 :=
    ⟨maxRetries.toNat - k - 1, by omega⟩
  rw [heq, hf, SM.endpoint_raise _ _ _ _ _ _ _ hcond ho' hnr]
  refine ⟨_, rfl, ?_, rfl, ?_⟩
  · show s₁.deleteCalls + 1 = 1
    rw [p4]
    rfl
  · show s₁.notifOk = none
    rw [p6]
    rfl

/-- Witness for C4 at a concrete input: one retryable throttling failure,
then a non-retryable validation error, with a delete that itself fails. -/
theorem c4_witness :
    ∃ s', SM.create_endpoint
        (fun i => if i = 0 then .err "ThrottlingException" else .err "ValidationException")
        true (.err "AccessDenied") 3 (3:Int).toNat SM.sm_init
      = .raised "ValidationException" s' ∧
      s'.deleteCalls = 1 ∧
      s'.deleteOk = some (ApiCall.err "AccessDenied").isOk ∧
      s'.notifOk = none :=
  c4_cleanup_on_nonretryable
    (fun i => if i = 0 then .err "ThrottlingException" else .err "ValidationException")
    true (.err "AccessDenied") 3 1 "ValidationException"
    (by
      intro i hi
      interval_cases i
      exact ⟨"ThrottlingException", rfl, rfl⟩)
    (by norm_num) rfl rfl

/-- C9: in the endpoint phase, when every create attempt fails with a
retryable error, the loop exits by exhausting `max_retries` attempts
without raising, without invoking the compensating delete (the
configuration artifact remains), and without a success notification; with
such an endpoint phase inside `main` after a successful configuration
phase, the process exits with status 0. -/
theorem c9_retry_exhaustion_silent (oracle : Nat → ApiCall) (snsOk : Bool)
    (deleteOutcome : ApiCall) (modelName : String) (maxRetries : Int)
    (hmr : 0 ≤ maxRetries)
    (hfail : ∀ i, ∃ c, oracle i = .err c ∧ (SM.handle_api_errors c).1 = true) :
    (∃ e, SM.create_endpoint oracle snsOk deleteOutcome maxRetries
        maxRetries.toNat SM.sm_init = .exhausted e ∧
      e.retryAttempts = maxRetries ∧
      e.deleteCalls = 0 ∧
      e.notifOk = none) ∧
    (SM.sm_main modelName false (.clientError "ValidationException") .ok oracle snsOk
        deleteOutcome maxRetries).exitCode = 0 ∧
    (SM.sm_main modelName false (.clientError "ValidationException") .ok oracle snsOk
        deleteOutcome maxRetries).endpointPhaseInvoked = true := by
  obtain ⟨e, heq, p1, p2, p3, p4, p5, p6⟩ :=
    SM.endpoint_retry_steps oracle snsOk deleteOutcome maxRetries maxRetries.toNat
      maxRetries.toNat SM.sm_init
      (by
        intro i _
        obtain ⟨c, h1, h2⟩ := hfail i
        refine ⟨c, ?_, h2⟩
        show oracle (0 + i) = ApiCall.err c
        rwa [Nat.zero_add])
      (by show (0:Int) + (maxRetries.toNat : Int) ≤ maxRetries; omega)
      (le_refl _)
  have hatt : e.retryAttempts = maxRetries := by
    rw [p1]
    show (0:Int) + (maxRetries.toNat : Int) = maxRetries
    omega
  have hstop : ¬(e.retryAttempts < maxRetries) := by rw [hatt]; omega
  have hend : SM.create_endpoint oracle snsOk deleteOutcome maxRetries
      maxRetries.toNat SM.sm_init = .exhausted e := by
    rw [heq, SM.endpoint_exit _ _ _ _ _ _ hstop]
  have hdel : e.deleteCalls = 0 := by
    rw [p4]
    rfl
  have hnot : e.notifOk = none := by
    rw [p6]
    rfl
  refine ⟨⟨e, hend, hatt, hdel, hnot⟩, ?_⟩
  have hmain : SM.sm_main modelName false (.clientError "ValidationException") .ok
      oracle snsOk deleteOutcome maxRetries
      = ⟨0, true, 1, some (.exhausted e)⟩ := by
    unfold SM.sm_main
    rw [show SM.create_endpoint_config modelName false (.clientError "ValidationException")
        .ok = ⟨.returns (some (modelName ++ "-config")), 1⟩ from rfl]
    dsimp only
    rw [hend]
  rw [hmain]
  exact ⟨rfl, rfl⟩

/-- Witness for C9 at a concrete input: three retries, every attempt
failing with a retryable throttling code. -/
theorem c9_witness :
    (∃ e, SM.create_endpoint (fun _ => .err "ThrottlingException") true .ok 3
        (3:Int).toNat SM.sm_init = .exhausted e ∧
      e.retryAttempts = 3 ∧
      e.deleteCalls = 0 ∧
      e.notifOk = none) ∧
    (SM.sm_main "my-model" false (.clientError "ValidationException") .ok
        (fun _ => .err "ThrottlingException") true .ok 3).exitCode = 0 ∧
    (SM.sm_main "my-model" false (.clientError "ValidationException") .ok
        (fun _ => .err "ThrottlingException") true .ok 3).endpointPhaseInvoked = true :=
  c9_retry_exhaustion_silent (fun _ => .err "ThrottlingException") true .ok "my-model" 3
    (by norm_num) (fun _ => ⟨"ThrottlingException", rfl, rfl⟩)

/-- C10: a retryable failure of the configuration-phase create call is
not retried: `create_endpoint_config` returns `None` after exactly one
create attempt, whereupon `main` skips the endpoint phase entirely and
the process exits with status 0, although nothing was created. -/
theorem c10_config_failure_not_retried (modelName c : String)
    (oracle : Nat → ApiCall) (snsOk : Bool) (deleteOutcome : ApiCall)
    (maxRetries : Int)
    (hr : (SM.handle_api_errors c).1 = true) :
    SM.create_endpoint_config modelName false (.clientError "ValidationException")
      (.err c) = ⟨.returns none, 1⟩ ∧
    (SM.sm_main modelName false (.clientError "ValidationException") (.err c)
        oracle snsOk deleteOutcome maxRetries).exitCode = 0 ∧
    (SM.sm_main modelName false (.clientError "ValidationException") (.err c)
        oracle snsOk deleteOutcome maxRetries).endpointPhaseInvoked = false := by
  have hcfg : SM.create_endpoint_config modelName false
      (.clientError "ValidationException") (.err c) = ⟨.returns none, 1⟩ := by
    unfold SM.create_endpoint_config
    rw [show SM.config_exists (.clientError "ValidationException")
        = .returns false from rfl]
    dsimp only
    rw [if_pos hr]
    rfl
  refine ⟨hcfg, ?_⟩
  have hmain : SM.sm_main modelName false (.clientError "ValidationException") (.err c)
      oracle snsOk deleteOutcome maxRetries = ⟨0, false, 1, none⟩ := by
    unfold SM.sm_main
    rw [hcfg]
  rw [hmain]
  exact ⟨rfl, rfl⟩

/-- Witness for C10 at a concrete input: the configuration create fails
with the retryable throttling code. -/
theorem c10_witness :
    SM.create_endpoint_config "my-model" false (.clientError "ValidationException")
      (.err "ThrottlingException") = ⟨.returns none, 1⟩ ∧
    (SM.sm_main "my-model" false (.clientError "ValidationException")
        (.err "ThrottlingException") (fun _ => .ok) true .ok 10).exitCode = 0 ∧
    (SM.sm_main "my-model" false (.clientError "ValidationException")
        (.err "ThrottlingException") (fun _ => .ok) true .ok 10).endpointPhaseInvoked
      = false :=
  c10_config_failure_not_retried "my-model" "ThrottlingException"
    (fun _ => .ok) true .ok 10 rfl

/-- C5: when the computed configuration name already exists, either as the
local configuration file or remotely as reported by the describe
collaborator, the configuration phase returns the no-op outcome `None`
without issuing any create call, and `main` never invokes the endpoint
phase and exits with status 0. -/
theorem c5_idempotency_guard (modelName : String) (configFileExists : Bool)
    (describe : SM.DescribeOutcome) (create : ApiCall)
    (oracle : Nat → ApiCall) (snsOk : Bool) (deleteOutcome : ApiCall)
    (maxRetries : Int)
    (hexists : configFileExists = true ∨ describe = .found) :
    (SM.create_endpoint_config modelName configFileExists describe create).outcome
      = .returns none ∧
    (SM.create_endpoint_config modelName configFileExists describe create).createCalls
      = 0 ∧
    (SM.sm_main modelName configFileExists describe create oracle snsOk deleteOutcome
        maxRetries).endpointPhaseInvoked = false ∧
    (SM.sm_main modelName configFileExists describe create oracle snsOk deleteOutcome
        maxRetries).exitCode = 0 := by
  have hcfg : SM.create_endpoint_config modelName configFileExists describe create
      = ⟨.returns none, 0⟩ := by
    rcases hexists with h | h
    · subst h
      rfl
    · subst h
      cases configFileExists
      · rfl
      · rfl
  have hmain : SM.sm_main modelName configFileExists describe create oracle snsOk
      deleteOutcome maxRetries = ⟨0, false, 0, none⟩ := by
    unfold SM.sm_main
    rw [hcfg]
  rw [hcfg, hmain]
  exact ⟨rfl, rfl, rfl, rfl⟩

/-- Witness for C5 at a concrete input: the local configuration file
already exists. -/
theorem c5_witness :
    (SM.create_endpoint_config "my-model" true (.clientError "ValidationException")
      .ok).outcome = .returns none ∧
    (SM.create_endpoint_config "my-model" true (.clientError "ValidationException")
      .ok).createCalls = 0 ∧
    (SM.sm_main "my-model" true (.clientError "ValidationException") .ok
        (fun _ => .ok) true .ok 10).endpointPhaseInvoked = false ∧
    (SM.sm_main "my-model" true (.clientError "ValidationException") .ok
        (fun _ => .ok) true .ok 10).exitCode = 0 :=
  c5_idempotency_guard "my-model" true (.clientError "ValidationException") .ok
    (fun _ => .ok) true .ok 10 (Or.inl rfl)
namespace EC2

/-- Equality of all loop-observable components of two EC2 loop states
except the SNS publish counters. -/
def coreEq (s t : Ec2State) : Prop :=
  s.instancesRemaining = t.instancesRemaining ∧ s.retryAttempts = t.retryAttempts ∧
  s.calls = t.calls ∧ s.launched = t.launched ∧ s.sleeps = t.sleeps ∧
  s.trace = t.trace

/-- Same termination kind, same raised error code, and `coreEq` states. -/
def resultCoreEq : Ec2Result → Ec2Result → Prop
  | .finished s, .finished t => coreEq s t
  | .raised c s, .raised d t => c = d ∧ coreEq s t
  | .fuelOut s, .fuelOut t => coreEq s t
  | _, _ => False

theorem launch_sns_independent (oracle : Nat → CreateOutcome) (sns₁ sns₂ : Nat → Bool)
    (instanceType : String) (maxRetry : Int) :
    ∀ (fuel : Nat) (s t : Ec2State), coreEq s t →
    resultCoreEq (launch_instances oracle sns₁ instanceType maxRetry fuel s)
      (launch_instances oracle sns₂ instanceType maxRetry fuel t) := by
  intro fuel
  induction fuel with
  | zero =>
    intro s t h
    obtain ⟨h1, h2, h3, h4, h5, h6⟩ := h
    by_cases hc : 0 < s.instancesRemaining ∧ s.retryAttempts < maxRetry
    · rw [launch_stuck _ _ _ _ _ hc,
        launch_stuck _ _ _ _ _ (by rw [← h1, ← h2]; exact hc)]
      exact ⟨h1, h2, h3, h4, h5, by
        show s.trace ++ [(s.instancesRemaining, s.retryAttempts)]
          = t.trace ++ [(t.instancesRemaining, t.retryAttempts)]
        rw [h6, h1, h2]⟩
    · rw [launch_exit _ _ _ _ _ _ hc,
        launch_exit _ _ _ _ _ _ (by rw [← h1, ← h2]; exact hc)]
      exact ⟨h1, h2, h3, h4, h5, by
        show s.trace ++ [(s.instancesRemaining, s.retryAttempts)]
          = t.trace ++ [(t.instancesRemaining, t.retryAttempts)]
        rw [h6, h1, h2]⟩
  | succ fuel ih =>
    intro s t h
    obtain ⟨h1, h2, h3, h4, h5, h6⟩ := h
    by_cases hc : 0 < s.instancesRemaining ∧ s.retryAttempts < maxRetry
    · have hct : 0 < t.instancesRemaining ∧ t.retryAttempts < maxRetry := by
        rw [← h1, ← h2]
        exact hc
      cases ho : oracle s.calls with
      | success instanceId =>
        have hot : oracle t.calls = .success instanceId := by rw [← h3]; exact ho
        rw [launch_success _ _ _ _ _ _ _ hc ho,
          launch_success _ _ _ _ _ _ _ hct hot]
        apply ih
        refine ⟨?_, rfl, ?_, ?_, ?_, ?_⟩
        · show s.instancesRemaining - 1 = t.instancesRemaining - 1
          rw [h1]
        · show s.calls + 1 = t.calls + 1
          rw [h3]
        · show s.launched ++ [instanceId] = t.launched ++ [instanceId]
          rw [h4]
        · exact h5
        · show s.trace ++ [(s.instancesRemaining, s.retryAttempts)]
            = t.trace ++ [(t.instancesRemaining, t.retryAttempts)]
          rw [h6, h1, h2]
      | failure errorCode =>
        have hot : oracle t.calls = .failure errorCode := by rw [← h3]; exact ho
        cases hr : (handle_api_errors errorCode instanceType).1 with
        | true =>
          rw [launch_retry _ _ _ _ _ _ _ hc ho hr,
            launch_retry _ _ _ _ _ _ _ hct hot hr]
          apply ih
          refine ⟨h1, ?_, ?_, h4, ?_, ?_⟩
          · show s.retryAttempts + 1 = t.retryAttempts + 1
            rw [h2]
          · show s.calls + 1 = t.calls + 1
            rw [h3]
          · show s.sleeps + 1 = t.sleeps + 1
            rw [h5]
          · show s.trace ++ [(s.instancesRemaining, s.retryAttempts)]
              = t.trace ++ [(t.instancesRemaining, t.retryAttempts)]
            rw [h6, h1, h2]
        | false =>
          rw [launch_raise _ _ _ _ _ _ _ hc ho hr,
            launch_raise _ _ _ _ _ _ _ hct hot hr]
          refine ⟨rfl, h1, ?_, ?_, h4, h5, ?_⟩
          · show s.retryAttempts + 1 = t.retryAttempts + 1
            rw [h2]
          · show s.calls + 1 = t.calls + 1
            rw [h3]
          · show s.trace ++ [(s.instancesRemaining, s.retryAttempts)]
              = t.trace ++ [(t.instancesRemaining, t.retryAttempts)]
            rw [h6, h1, h2]
    · have hct : ¬(0 < t.instancesRemaining ∧ t.retryAttempts < maxRetry) := by
        rw [← h1, ← h2]
        exact hc
      rw [launch_exit _ _ _ _ _ _ hc, launch_exit _ _ _ _ _ _ hct]
      exact ⟨h1, h2, h3, h4, h5, by
        show s.trace ++ [(s.instancesRemaining, s.retryAttempts)]
          = t.trace ++ [(t.instancesRemaining, t.retryAttempts)]
        rw [h6, h1, h2]⟩

end EC2

namespace SM

theorem endpoint_stuck (oracle : Nat → ApiCall) (snsOk : Bool) (deleteOutcome : ApiCall)
    (maxRetries : Int) (s : SmState)
    (hc : s.retryAttempts < maxRetries) :
    create_endpoint oracle snsOk deleteOutcome maxRetries 0 s = .fuelOut s := by
  rw [create_endpoint.eq_def]
  dsimp only
  rw [if_pos hc]

/-- Erase the notification-outcome field of the final state, keeping the
provisioning outcome itself. -/
def SmState.scrubNotif (s : SmState) : SmState := { s with notifOk := none }

/-- Erase the notification-outcome field inside an endpoint-phase result. -/
def SmResult.scrubNotif : SmResult → SmResult
  | .returned s => .returned s.scrubNotif
  | .exhausted s => .exhausted s.scrubNotif
  | .raised c s => .raised c s.scrubNotif
  | .fuelOut s => .fuelOut s.scrubNotif

/-- Erase the notification-outcome field inside a `main` result. -/
def MainResult.scrubNotif (r : MainResult) : MainResult :=
  { r with endpointResult := r.endpointResult.map SmResult.scrubNotif }

theorem endpoint_sns_independent (oracle : Nat → ApiCall) (sns₁ sns₂ : Bool)
    (deleteOutcome : ApiCall) (maxRetries : Int) :
    ∀ (fuel : Nat) (s : SmState),
    SmResult.scrubNotif (create_endpoint oracle sns₁ deleteOutcome maxRetries fuel s)
      = SmResult.scrubNotif (create_endpoint oracle sns₂ deleteOutcome maxRetries fuel s) := by
  intro fuel
  induction fuel with
  | zero =>
    intro s
    by_cases hc : s.retryAttempts < maxRetries
    · rw [endpoint_stuck _ _ _ _ _ hc, endpoint_stuck _ _ _ _ _ hc]
    · rw [endpoint_exit _ _ _ _ _ _ hc, endpoint_exit _ _ _ _ _ _ hc]
  | succ fuel ih =>
    intro s
    by_cases hc : s.retryAttempts < maxRetries
    · cases ho : oracle s.calls with
      | ok =>
        rw [endpoint_success _ _ _ _ _ _ hc ho, endpoint_success _ _ _ _ _ _ hc ho]
        rfl
      | err c =>
        cases hr : (handle_api_errors c).1 with
        | true =>
          rw [endpoint_retry _ _ _ _ _ _ _ hc ho hr,
            endpoint_retry _ _ _ _ _ _ _ hc ho hr]
          exact ih _
        | false =>
          rw [endpoint_raise _ _ _ _ _ _ _ hc ho hr,
            endpoint_raise _ _ _ _ _ _ _ hc ho hr]
    · rw [endpoint_exit _ _ _ _ _ _ hc, endpoint_exit _ _ _ _ _ _ hc]

theorem sm_main_sns_independent (modelName : String) (configFileExists : Bool)
    (describe : DescribeOutcome) (configCreate : ApiCall)
    (oracle : Nat → ApiCall) (sns₁ sns₂ : Bool) (deleteOutcome : ApiCall)
    (maxRetries : Int) :
    MainResult.scrubNotif (sm_main modelName configFileExists describe configCreate
        oracle sns₁ deleteOutcome maxRetries)
      = MainResult.scrubNotif (sm_main modelName configFileExists describe configCreate
        oracle sns₂ deleteOutcome maxRetries) := by
  unfold sm_main
  dsimp only
  cases hcp : (create_endpoint_config modelName configFileExists describe
      configCreate).outcome with
  | raises c => rfl
  | returns v =>
    cases v with
    | none => rfl
    | some name =>
      dsimp only
      have hsc := endpoint_sns_independent oracle sns₁ sns₂ deleteOutcome maxRetries
        maxRetries.toNat sm_init
      cases h1 : create_endpoint oracle sns₁ deleteOutcome maxRetries
          maxRetries.toNat sm_init with
      | returned s =>
        cases h2 : create_endpoint oracle sns₂ deleteOutcome maxRetries
            maxRetries.toNat sm_init with
        | returned t =>
          rw [h1, h2] at hsc
          simp only [SmResult.scrubNotif, SmResult.returned.injEq] at hsc
          simp [MainResult.scrubNotif, SmResult.scrubNotif, hsc]
        | exhausted t => rw [h1, h2] at hsc; simp [SmResult.scrubNotif] at hsc
        | raised d t => rw [h1, h2] at hsc; simp [SmResult.scrubNotif] at hsc
        | fuelOut t => rw [h1, h2] at hsc; simp [SmResult.scrubNotif] at hsc
      | exhausted s =>
        cases h2 : create_endpoint oracle sns₂ deleteOutcome maxRetries
            maxRetries.toNat sm_init with
        | returned t => rw [h1, h2] at hsc; simp [SmResult.scrubNotif] at hsc
        | exhausted t =>
          rw [h1, h2] at hsc
          simp only [SmResult.scrubNotif, SmResult.exhausted.injEq] at hsc
          simp [MainResult.scrubNotif, SmResult.scrubNotif, hsc]
        | raised d t => rw [h1, h2] at hsc; simp [SmResult.scrubNotif] at hsc
        | fuelOut t => rw [h1, h2] at hsc; simp [SmResult.scrubNotif] at hsc
      | raised c s =>
        cases h2 : create_endpoint oracle sns₂ deleteOutcome maxRetries
            maxRetries.toNat sm_init with
        | returned t => rw [h1, h2] at hsc; simp [SmResult.scrubNotif] at hsc
        | exhausted t => rw [h1, h2] at hsc; simp [SmResult.scrubNotif] at hsc
        | raised d t =>
          rw [h1, h2] at hsc
          simp only [SmResult.scrubNotif, SmResult.raised.injEq] at hsc
          simp [MainResult.scrubNotif, SmResult.scrubNotif, hsc.1, hsc.2]
        | fuelOut t => rw [h1, h2] at hsc; simp [SmResult.scrubNotif] at hsc
      | fuelOut s =>
        cases h2 : create_endpoint oracle sns₂ deleteOutcome maxRetries
            maxRetries.toNat sm_init with
        | returned t => rw [h1, h2] at hsc; simp [SmResult.scrubNotif] at hsc
        | exhausted t => rw [h1, h2] at hsc; simp [SmResult.scrubNotif] at hsc
        | raised d t => rw [h1, h2] at hsc; simp [SmResult.scrubNotif] at hsc
        | fuelOut t =>
          rw [h1, h2] at hsc
          simp only [SmResult.scrubNotif, SmResult.fuelOut.injEq] at hsc
          simp [MainResult.scrubNotif, SmResult.scrubNotif, hsc]

end SM

/-- C8: a failure of the notification publish never alters the
provisioning outcome. For the EC2 loop, runs with any two SNS oracles
from the same initial state produce results equal in every component
except the publish counters (same termination kind, same raised code,
same launched instances, counters, sleeps and trace); for the SageMaker
script, `main` produces the same result up to the recorded publish
outcome, and in particular the same process exit status. -/
theorem c8_notifier_failure_immaterial (oracleE : Nat → CreateOutcome)
    (snsE₁ snsE₂ : Nat → Bool) (instanceType : String)
    (targetCount maxRetry : Int) (fuel : Nat)
    (modelName : String) (configFileExists : Bool) (describe : SM.DescribeOutcome)
    (configCreate : ApiCall) (oracleS : Nat → ApiCall) (snsS₁ snsS₂ : Bool)
    (deleteOutcome : ApiCall) (maxRetries : Int) :
    EC2.resultCoreEq
      (EC2.launch_instances oracleE snsE₁ instanceType maxRetry fuel
        (EC2.ec2_init targetCount))
      (EC2.launch_instances oracleE snsE₂ instanceType maxRetry fuel
        (EC2.ec2_init targetCount)) ∧
    SM.MainResult.scrubNotif (SM.sm_main modelName configFileExists describe
        configCreate oracleS snsS₁ deleteOutcome maxRetries)
      = SM.MainResult.scrubNotif (SM.sm_main modelName configFileExists describe
        configCreate oracleS snsS₂ deleteOutcome maxRetries) ∧
    (SM.sm_main modelName configFileExists describe configCreate oracleS snsS₁
        deleteOutcome maxRetries).exitCode
      = (SM.sm_main modelName configFileExists describe configCreate oracleS snsS₂
        deleteOutcome maxRetries).exitCode := by
  refine ⟨?_, ?_, ?_⟩
  · exact EC2.launch_sns_independent oracleE snsE₁ snsE₂ instanceType maxRetry fuel
      _ _ ⟨rfl, rfl, rfl, rfl, rfl, rfl⟩
  · exact SM.sm_main_sns_independent modelName configFileExists describe configCreate
      oracleS snsS₁ snsS₂ deleteOutcome maxRetries
  · have h := SM.sm_main_sns_independent modelName configFileExists describe
      configCreate oracleS snsS₁ snsS₂ deleteOutcome maxRetries
    calc (SM.sm_main modelName configFileExists describe configCreate oracleS snsS₁
            deleteOutcome maxRetries).exitCode
        = (SM.MainResult.scrubNotif (SM.sm_main modelName configFileExists describe
            configCreate oracleS snsS₁ deleteOutcome maxRetries)).exitCode := rfl
      _ = (SM.MainResult.scrubNotif (SM.sm_main modelName configFileExists describe
            configCreate oracleS snsS₂ deleteOutcome maxRetries)).exitCode := by rw [h]
      _ = (SM.sm_main modelName configFileExists describe configCreate oracleS snsS₂
            deleteOutcome maxRetries).exitCode := rfl
